import Mathlib

/-!
Verification of the hand-distance estimator (`hand_estimation.py`).

The logic of the program is arithmetic over Python floats, a truncating
conversion to integer pixel coordinates, an interactive calibration flow,
and a two-line flat-file persistence format.  The shallow embedding below
models Python floats as exact rationals (`ℚ`), `int()` as truncation toward
zero, the calibration file as a list of lines (each either a numeric line or
unparsable text), and the interactive loops as structural recursion over the
finite list of inputs/frames supplied to a run (`none` results model runs
that never terminate within the supplied inputs).
-/

/-- Truncation toward zero on rationals: the behaviour of Python `int()`
applied to a float. -/
def pytrunc (q : ℚ) : ℤ := if 0 ≤ q then ⌊q⌋ else ⌈q⌉

/-- Truncation toward zero is monotone. -/
theorem pytrunc_mono {a b : ℚ} (hab : a ≤ b) : pytrunc a ≤ pytrunc b := by
  unfold pytrunc
  by_cases ha : 0 ≤ a
  · rw [if_pos ha, if_pos (ha.trans hab)]
    exact Int.floor_mono hab
  · rw [if_neg ha]
    by_cases hb : 0 ≤ b
    · rw [if_pos hb]
      have h1 : ⌈a⌉ ≤ 0 := by
        rw [Int.ceil_le]
        exact_mod_cast le_of_lt (lt_of_not_le ha)
      have h2 : (0 : ℤ) ≤ ⌊b⌋ := by
        rw [Int.le_floor]
        exact_mod_cast hb
      omega
    · rw [if_neg hb]
      exact Int.ceil_mono hab

/-- Evaluation rule for `pytrunc` on nonnegative rationals, used to compute
on concrete inputs. -/
theorem pytrunc_eq_of (q : ℚ) (z : ℤ) (h0 : 0 ≤ q) (h1 : (z : ℚ) ≤ q)
    (h2 : q < (z : ℚ) + 1) : pytrunc q = z := by
  unfold pytrunc
  rw [if_pos h0]
  refine Int.floor_eq_iff.mpr ⟨h1, ?_⟩
  exact_mod_cast h2

/-- One normalized landmark point (mediapipe coordinates in `[0,1]`,
though the code never clamps, so we quantify over all of `ℚ`). -/
structure Point where
  x : ℚ
  y : ℚ
deriving DecidableEq

/-- The three landmarks `get_hand_details` selects: wrist, index-finger MCP
and pinky MCP. -/
structure HandLandmarks where
  wrist : Point
  indexMcp : Point
  pinkyMcp : Point
deriving DecidableEq

/-- Embedding of `get_hand_details(hand_landmarks, image_width, image_height)`:
converts the three normalized landmarks to pixel coordinates, truncates the
extrema to integers with `int()` (= `pytrunc`), and returns
`(pixel_width, (x_min, y_min, x_max, y_max))` where
`pixel_width = abs(x_max - x_min)`. -/
def get_hand_details (hand : HandLandmarks) (image_width image_height : ℕ) :
    ℤ × (ℤ × ℤ × ℤ × ℤ) :=
  let x1 : ℚ := hand.wrist.x * image_width
  let x2 : ℚ := hand.indexMcp.x * image_width
  let x3 : ℚ := hand.pinkyMcp.x * image_width
  let y1 : ℚ := hand.wrist.y * image_height
  let y2 : ℚ := hand.indexMcp.y * image_height
  let y3 : ℚ := hand.pinkyMcp.y * image_height
  let x_min : ℤ := pytrunc (min x1 (min x2 x3))
  let x_max : ℤ := pytrunc (max x1 (max x2 x3))
  let y_min : ℤ := pytrunc (min y1 (min y2 y3))
  let y_max : ℤ := pytrunc (max y1 (max y2 y3))
  let pixel_width : ℤ := |x_max - x_min|
  (pixel_width, (x_min, y_min, x_max, y_max))

/-- Embedding of `estimate_distance(known_width_cm, focal_length, pixel_width)`:
returns `0` when `pixel_width == 0`, otherwise
`(known_width_cm * focal_length) / pixel_width`. -/
def estimate_distance (known_width_cm focal_length : ℚ) (pixel_width : ℤ) : ℚ :=
  if pixel_width = 0 then 0
  else (known_width_cm * focal_length) / (pixel_width : ℚ)

/-- Embedding of the constant `KNOWN_DISTANCE_FOR_CALIBRATION = 30.0`. -/
def KNOWN_DISTANCE_FOR_CALIBRATION : ℚ := 30

/-- One line of the calibration file: either the decimal rendering of a
number (which Python `float()` parses back exactly) or unparsable text,
on which `float()` raises `ValueError`.  The empty string returned by
`readline()` past the end of the file is unparsable text. -/
inductive FileLine where
  | num (value : ℚ)
  | raw (s : String)
deriving DecidableEq

/-- Embedding of `float(line.strip())` on one line: succeeds exactly on
numeric lines. -/
def parseFloat : FileLine → Option ℚ
  | .num v => some v
  | .raw _ => none

/-- What `calibrate` writes to `CALIBRATION_FILE`: line 1 is the focal
length, line 2 the known hand width. -/
def writeCalibrationFile (focal_length known_hand_width : ℚ) : List FileLine :=
  [.num focal_length, .num known_hand_width]

/-- Embedding of the load path of `get_calibration_data`: read two lines
(`readline()` past the end yields the empty, unparsable line) and parse each
as a float; `none` models the `(ValueError, IndexError)` branch. -/
def readCalibrationFile (file : List FileLine) : Option (ℚ × ℚ) :=
  match parseFloat (file.getD 0 (.raw "")), parseFloat (file.getD 1 (.raw "")) with
  | some focal_length, some known_width => some (focal_length, known_width)
  | _, _ => none

/-- Embedding of the hand-width prompt loop in `calibrate`: each entry is
`none` for input where `float()` raises `ValueError`, `some v` for a parsed
number; the loop keeps prompting until a parsed number is positive.  A run
that exhausts the supplied inputs never terminates (`none`). -/
def firstValidWidth : List (Option ℚ) → Option ℚ
  | [] => none
  | none :: rest => firstValidWidth rest
  | some v :: rest => if 0 < v then some v else firstValidWidth rest

/-- One iteration of a camera loop: whether `cap.read()` succeeded, the
detected hand landmarks (if any), the frame dimensions, and whether the
capture key `c` was pressed during this iteration. -/
structure Frame where
  readSuccess : Bool
  hand : Option HandLandmarks
  width : ℕ
  height : ℕ
  keyC : Bool
deriving DecidableEq

/-- Observable outcome of one iteration of the calibration capture loop:
success (focal length computed, file written, loop breaks), the
"Could not measure hand width" failure message (loop continues), or no
effect at all (loop continues). -/
inductive CalibStepResult where
  | success (focal_length : ℚ) (file : List FileLine)
  | failureMessage
  | skip
deriving DecidableEq

/-- One iteration of the capture loop in `calibrate`: a failed frame read
is skipped; the capture branch runs only when `c` was pressed AND a hand is
detected; with a positive measured pixel width it computes
`focal_length = (pixel_width * KNOWN_DISTANCE_FOR_CALIBRATION) / known_hand_width`,
writes the file and breaks, otherwise it prints the failure message and
continues. -/
def calibStep (known_hand_width : ℚ) (f : Frame) : CalibStepResult :=
  match f.readSuccess, f.hand, f.keyC with
  | true, some hand, true =>
    let pixel_width := (get_hand_details hand f.width f.height).1
    if 0 < pixel_width then
      let focal_length :=
        ((pixel_width : ℚ) * KNOWN_DISTANCE_FOR_CALIBRATION) / known_hand_width
      .success focal_length (writeCalibrationFile focal_length known_hand_width)
    else .failureMessage
  | _, _, _ => .skip

/-- The capture loop of `calibrate` over the frames of a run: returns the focal
length and the file contents written on the first successful capture;
`none` models a run that never captures successfully. -/
def calibLoop (known_hand_width : ℚ) : List Frame → Option (ℚ × List FileLine)
  | [] => none
  | f :: rest =>
    match calibStep known_hand_width f with
    | .success focal_length file => some (focal_length, file)
    | _ => calibLoop known_hand_width rest

/-- Embedding of `calibrate()`: prompt for a positive hand width, then run
the capture loop; on success return the focal length, the hand width, and
the file contents written. -/
def calibrate (widthInputs : List (Option ℚ)) (frames : List Frame) :
    Option (ℚ × ℚ × List FileLine) :=
  match firstValidWidth widthInputs with
  | none => none
  | some known_hand_width =>
    match calibLoop known_hand_width frames with
    | none => none
    | some (focal_length, file) => some (focal_length, known_hand_width, file)

/-- Model of Python `str.lower()` (ASCII case folding, which is all the
`y`/`n` prompt needs). -/
def pyLower (s : String) : String := String.mk (s.data.map Char.toLower)

/-- Result of `calibrate()` as `get_calibration_data` returns it: the
written file is dropped and the pair is returned; the inner `Option`s
mirror the Python `None` initialisation of `focal_length, known_width`. -/
def calibResultPair : Option (ℚ × ℚ × List FileLine) → Option (Option ℚ × Option ℚ)
  | none => none
  | some (focal_length, known_width, _) => some (some focal_length, some known_width)

/-- The `y`/`n` prompt loop of `get_calibration_data` when a calibration
file exists: `y` loads the file, falling back to `calibrate()` when parsing
fails; `n` runs `calibrate()`; anything else re-prompts.  Exhausting the
supplied choices models the indefinitely re-prompting run (`none`). -/
def gcdChoiceLoop (file : List FileLine) (calibResult : Option (ℚ × ℚ × List FileLine)) :
    List String → Option (Option ℚ × Option ℚ)
  | [] => none
  | c :: rest =>
    if pyLower c = "y" then
      match readCalibrationFile file with
      | some (focal_length, known_width) => some (some focal_length, some known_width)
      | none => calibResultPair calibResult
    else if pyLower c = "n" then calibResultPair calibResult
    else gcdChoiceLoop file calibResult rest

/-- Embedding of `get_calibration_data()`: if the calibration file exists,
run the `y`/`n` prompt loop, otherwise run `calibrate()` directly.  The
outer `none` models a run that never terminates on the supplied inputs. -/
def get_calibration_data (fileExists : Bool) (file : List FileLine)
    (choices : List String) (widthInputs : List (Option ℚ)) (frames : List Frame) :
    Option (Option ℚ × Option ℚ) :=
  if fileExists then gcdChoiceLoop file (calibrate widthInputs frames) choices
  else calibResultPair (calibrate widthInputs frames)

/-- The guard of the fatal branch in `main`:
`focal_length is None or known_hand_width is None`. -/
def fatalBranchTaken (p : Option ℚ × Option ℚ) : Bool :=
  p.1.isNone || p.2.isNone

/-- The per-frame warning decision of the runtime loop in `main`: the
distance is computed only when `pixel_width > 0`, and the "Too Close!!"
overlay is drawn exactly when `distance < 60`. -/
def warningDisplayed (known_hand_width focal_length : ℚ) (pixel_width : ℤ) : Bool :=
  if 0 < pixel_width then
    decide (estimate_distance known_hand_width focal_length pixel_width < 60)
  else false

/-- Spec-side definition for claim C5, following the words of the claim: the
horizontal span `max(x * width) - min(x * width)` over the raw
landmark (untruncated) pixel coordinates. -/
def xSpanSpec (hand : HandLandmarks) (image_width : ℕ) : ℚ :=
  max (hand.wrist.x * image_width)
      (max (hand.indexMcp.x * image_width) (hand.pinkyMcp.x * image_width)) -
    min (hand.wrist.x * image_width)
      (min (hand.indexMcp.x * image_width) (hand.pinkyMcp.x * image_width))

/-- Helper: round-trip of the two-line calibration file format. -/
theorem readCalibrationFile_writeCalibrationFile (focal_length known_hand_width : ℚ) :
    readCalibrationFile (writeCalibrationFile focal_length known_hand_width) =
      some (focal_length, known_hand_width) := rfl

/-- C1: `estimate_distance` returns 0 when the pixel width is 0 and
otherwise returns exactly `(known_width_cm * focal_length) / pixel_width`;
it never divides by zero. -/
theorem C1_estimate_distance_total (known_width_cm focal_length : ℚ)
    (pixel_width : ℤ) (h : pixel_width ≠ 0) :
    estimate_distance known_width_cm focal_length 0 = 0 ∧
    estimate_distance known_width_cm focal_length pixel_width =
      (known_width_cm * focal_length) / (pixel_width : ℚ) := by
  refine ⟨rfl, ?_⟩
  unfold estimate_distance
  rw [if_neg h]

/-- Witness for C1 at `known_width_cm = 8`, `focal_length = 450`,
`pixel_width = 100`. -/
theorem C1_estimate_distance_total_witness :
    (100 : ℤ) ≠ 0 ∧
    (estimate_distance 8 450 0 = 0 ∧
      estimate_distance 8 450 100 = (8 * 450 : ℚ) / ((100 : ℤ) : ℚ)) :=
  ⟨by decide, C1_estimate_distance_total 8 450 100 (by decide)⟩

/-- C3: writing a calibration record in the two-line persisted format and
reading it back with the load path yields the same pair. -/
theorem C3_calibration_roundtrip (focal_length known_hand_width : ℚ) :
    readCalibrationFile (writeCalibrationFile focal_length known_hand_width) =
      some (focal_length, known_hand_width) :=
  readCalibrationFile_writeCalibrationFile focal_length known_hand_width

/-- Demo landmarks whose pixel x-coordinates at image width 1000 are
0, 120 and 60: the measured pixel width is 120. -/
def calibDemoHand : HandLandmarks :=
  { wrist := { x := 0, y := 0 }
    indexMcp := { x := 3 / 25, y := 0 }
    pinkyMcp := { x := 3 / 50, y := 0 } }

/-- Demo calibration frame: successful read, hand detected, capture key
pressed, image 1000 x 500. -/
def calibDemoFrame : Frame :=
  { readSuccess := true, hand := some calibDemoHand
    width := 1000, height := 500, keyC := true }

/-- Helper: a capture iteration with a detected hand of positive measured
pixel width computes the focal length and writes the file. -/
theorem calibStep_capture_eq (known_hand_width : ℚ) (f : Frame)
    (hand : HandLandmarks)
    (hs : f.readSuccess = true) (hk : f.keyC = true) (hh : f.hand = some hand)
    (hp : 0 < (get_hand_details hand f.width f.height).1) :
    calibStep known_hand_width f =
      .success
        ((((get_hand_details hand f.width f.height).1 : ℚ) *
            KNOWN_DISTANCE_FOR_CALIBRATION) / known_hand_width)
        (writeCalibrationFile
          ((((get_hand_details hand f.width f.height).1 : ℚ) *
              KNOWN_DISTANCE_FOR_CALIBRATION) / known_hand_width)
          known_hand_width) := by
  obtain ⟨rs, hd, wd, ht, kc⟩ := f
  simp only at hs hk hh
  subst hs hk hh
  simp only [calibStep, if_pos hp]

/-- C2: on a capture with measured pixel width > 0, the capture iteration
computes `focal_length = (pixel_width * KNOWN_DISTANCE_FOR_CALIBRATION) / known_hand_width`
and persists exactly the pair `(focal_length, known_hand_width)`. -/
theorem C2_calibrate_focal_length (known_hand_width : ℚ) (f : Frame)
    (hand : HandLandmarks) (_hkw : 0 < known_hand_width)
    (hs : f.readSuccess = true) (hk : f.keyC = true) (hh : f.hand = some hand)
    (hp : 0 < (get_hand_details hand f.width f.height).1) :
    calibStep known_hand_width f =
      .success
        ((((get_hand_details hand f.width f.height).1 : ℚ) *
            KNOWN_DISTANCE_FOR_CALIBRATION) / known_hand_width)
        (writeCalibrationFile
          ((((get_hand_details hand f.width f.height).1 : ℚ) *
              KNOWN_DISTANCE_FOR_CALIBRATION) / known_hand_width)
          known_hand_width) :=
  calibStep_capture_eq known_hand_width f hand hs hk hh hp

/-- Helper: `get_hand_details` evaluated on the demo calibration hand. -/
theorem ghd_calibDemoHand :
    get_hand_details calibDemoHand 1000 500 = (120, (0, 0, 120, 0)) := by
  unfold get_hand_details calibDemoHand
  norm_num [min_def, max_def]
  rw [pytrunc_eq_of 120 120 (by norm_num) (by norm_num) (by norm_num),
      pytrunc_eq_of 0 0 (by norm_num) (by norm_num) (by norm_num)]
  norm_num

/-- Witness for C2: pixel width 120 and hand width 8 cm yield a focal
length of 450.0, and the file written holds exactly (450.0, 8.0). -/
theorem C2_calibrate_focal_length_witness :
    (0 : ℚ) < 8 ∧ 0 < (get_hand_details calibDemoHand 1000 500).1 ∧
    calibStep 8 calibDemoFrame = .success 450 (writeCalibrationFile 450 8) := by
  have hp : 0 < (get_hand_details calibDemoHand 1000 500).1 := by
    rw [ghd_calibDemoHand]
    norm_num
  have h := C2_calibrate_focal_length 8 calibDemoFrame calibDemoHand
    (by norm_num) rfl rfl rfl hp
  have hpw : (get_hand_details calibDemoHand calibDemoFrame.width
      calibDemoFrame.height).1 = 120 := by
    rw [show calibDemoFrame.width = 1000 from rfl,
        show calibDemoFrame.height = 500 from rfl, ghd_calibDemoHand]
  have hf : (((120 : ℤ) : ℚ) * KNOWN_DISTANCE_FOR_CALIBRATION) / 8 = 450 := by
    norm_num [KNOWN_DISTANCE_FOR_CALIBRATION]
  refine ⟨by norm_num, hp, ?_⟩
  rw [h, hpw, hf]

/-- Demo landmarks for C5: at image width 10 the pixel x-coordinates are
0.5, 2.7 and 1.0, so the raw span is 2.2 but the returned pixel width is
`int(2.7) - int(0.5) = 2`. -/
def spanDemoHand : HandLandmarks :=
  { wrist := { x := 1 / 20, y := 0 }
    indexMcp := { x := 27 / 100, y := 0 }
    pinkyMcp := { x := 1 / 10, y := 0 } }

/-- Counterexample to C5: `get_hand_details` subtracts the truncated
extrema, so its pixel width (here 2) differs from the raw horizontal span
`max(x * width) - min(x * width)` (here 2.2). -/
theorem C5_counterexample_truncated_span :
    (get_hand_details spanDemoHand 10 10).1 = 2 ∧
    xSpanSpec spanDemoHand 10 = 11 / 5 ∧
    ((get_hand_details spanDemoHand 10 10).1 : ℚ) ≠ xSpanSpec spanDemoHand 10 := by
  have hgh : get_hand_details spanDemoHand 10 10 = (2, (0, 0, 2, 0)) := by
    unfold get_hand_details spanDemoHand
    norm_num [min_def, max_def]
    rw [pytrunc_eq_of (27 / 10) 2 (by norm_num) (by norm_num) (by norm_num),
        pytrunc_eq_of (1 / 2) 0 (by norm_num) (by norm_num) (by norm_num),
        pytrunc_eq_of 0 0 (by norm_num) (by norm_num) (by norm_num)]
    norm_num
  have hspan : xSpanSpec spanDemoHand 10 = 11 / 5 := by
    unfold xSpanSpec spanDemoHand
    norm_num [min_def, max_def]
  refine ⟨by rw [hgh], hspan, ?_⟩
  rw [hgh, hspan]
  norm_num

/-- C5 (amended): the pixel width returned by `get_hand_details` is
non-negative and equals the horizontal span of the
TRUNCATED integer pixel x-coordinates, that is
`int(max(x * width)) - int(min(x * width))`. -/
theorem C5_pixel_width_truncated_span (hand : HandLandmarks) (w h : ℕ) :
    0 ≤ (get_hand_details hand w h).1 ∧
    (get_hand_details hand w h).1 =
      pytrunc (max (hand.wrist.x * w)
          (max (hand.indexMcp.x * w) (hand.pinkyMcp.x * w))) -
        pytrunc (min (hand.wrist.x * w)
          (min (hand.indexMcp.x * w) (hand.pinkyMcp.x * w))) := by
  have hle : pytrunc (min (hand.wrist.x * w)
        (min (hand.indexMcp.x * w) (hand.pinkyMcp.x * w))) ≤
      pytrunc (max (hand.wrist.x * w)
        (max (hand.indexMcp.x * w) (hand.pinkyMcp.x * w))) :=
    pytrunc_mono (le_trans (min_le_left _ _) (le_max_left _ _))
  constructor
  · exact abs_nonneg _
  · exact abs_of_nonneg (sub_nonneg.mpr hle)

/-- C6: the bounding box returned by `get_hand_details` is made of the
truncations (`int()`, toward zero) of the coordinate extrema, and satisfies
`x_min ≤ x_max` and `y_min ≤ y_max`. -/
theorem C6_bounding_box_invariant (hand : HandLandmarks) (w h : ℕ) :
    (get_hand_details hand w h).2.1 ≤ (get_hand_details hand w h).2.2.2.1 ∧
    (get_hand_details hand w h).2.2.1 ≤ (get_hand_details hand w h).2.2.2.2 ∧
    (get_hand_details hand w h).2.1 =
      pytrunc (min (hand.wrist.x * w)
        (min (hand.indexMcp.x * w) (hand.pinkyMcp.x * w))) ∧
    (get_hand_details hand w h).2.2.1 =
      pytrunc (min (hand.wrist.y * h)
        (min (hand.indexMcp.y * h) (hand.pinkyMcp.y * h))) ∧
    (get_hand_details hand w h).2.2.2.1 =
      pytrunc (max (hand.wrist.x * w)
        (max (hand.indexMcp.x * w) (hand.pinkyMcp.x * w))) ∧
    (get_hand_details hand w h).2.2.2.2 =
      pytrunc (max (hand.wrist.y * h)
        (max (hand.indexMcp.y * h) (hand.pinkyMcp.y * h))) :=
  ⟨pytrunc_mono (le_trans (min_le_left _ _) (le_max_left _ _)),
   pytrunc_mono (le_trans (min_le_left _ _) (le_max_left _ _)),
   rfl, rfl, rfl, rfl⟩

/-- Helper: the measured pixel width is always non-negative (it is an
absolute value). -/
theorem ghd_pixel_width_nonneg (hand : HandLandmarks) (w h : ℕ) :
    0 ≤ (get_hand_details hand w h).1 :=
  abs_nonneg _

/-- Helper: `calibStep` evaluated on the demo frame. -/
theorem calibStep_demo :
    calibStep 8 calibDemoFrame = .success 450 (writeCalibrationFile 450 8) := by
  have hp : 0 < (get_hand_details calibDemoHand 1000 500).1 := by
    rw [ghd_calibDemoHand]
    norm_num
  have h := calibStep_capture_eq 8 calibDemoFrame calibDemoHand rfl rfl rfl hp
  have hpw : (get_hand_details calibDemoHand calibDemoFrame.width
      calibDemoFrame.height).1 = 120 := by
    rw [show calibDemoFrame.width = 1000 from rfl,
        show calibDemoFrame.height = 500 from rfl, ghd_calibDemoHand]
  have hf : (((120 : ℤ) : ℚ) * KNOWN_DISTANCE_FOR_CALIBRATION) / 8 = 450 := by
    norm_num [KNOWN_DISTANCE_FOR_CALIBRATION]
  rw [h, hpw, hf]

/-- Helper: `calibrate` evaluated on the demo inputs: hand width 8 cm,
one frame with a captured pixel width of 120. -/
theorem calibrate_demo :
    calibrate [some 8] [calibDemoFrame] =
      some (450, 8, writeCalibrationFile 450 8) := by
  have h1 : firstValidWidth [some 8] = some 8 := by
    simp only [firstValidWidth]
    rw [if_pos (by norm_num : (0 : ℚ) < 8)]
  have h2 : calibLoop 8 [calibDemoFrame] = some (450, writeCalibrationFile 450 8) := by
    simp only [calibLoop, calibStep_demo]
  simp only [calibrate, h1, h2]

/-- C4: when the first or second line of the calibration file does not
parse as a float, choosing `y` (reuse) makes `get_calibration_data` fall
back to running `calibrate` and return its result. -/
theorem C4_corrupt_file_falls_back (file : List FileLine) (choices : List String)
    (widthInputs : List (Option ℚ)) (frames : List Frame)
    (h : parseFloat (file.getD 0 (.raw "")) = none ∨
      parseFloat (file.getD 1 (.raw "")) = none) :
    get_calibration_data true file ("y" :: choices) widthInputs frames =
      calibResultPair (calibrate widthInputs frames) := by
  have hr : readCalibrationFile file = none := by
    unfold readCalibrationFile
    rcases h with h | h
    · rw [h]
    · rw [h]
      cases parseFloat (file.getD 0 (.raw "")) <;> rfl
  have hy : pyLower "y" = "y" := by decide
  simp only [get_calibration_data, gcdChoiceLoop, hy, hr, if_true]

/-- Witness for C4 at a one-line garbage file. -/
theorem C4_corrupt_file_falls_back_witness :
    (parseFloat ([FileLine.raw "garbage"].getD 0 (.raw "")) = none ∨
      parseFloat ([FileLine.raw "garbage"].getD 1 (.raw "")) = none) ∧
    get_calibration_data true [FileLine.raw "garbage"] ["y"] [some 8]
        [calibDemoFrame] =
      calibResultPair (calibrate [some 8] [calibDemoFrame]) :=
  ⟨Or.inl rfl,
   C4_corrupt_file_falls_back [FileLine.raw "garbage"] [] [some 8]
     [calibDemoFrame] (Or.inl rfl)⟩

/-- C7: in the runtime loop, for a frame with `pixel_width > 0` the
proximity warning is overlaid exactly when the estimated distance is
strictly below 60 cm; with focal length 450 and hand width 8, pixel width
100 gives 36 cm (warning) and pixel width 60 gives 60 cm (no warning). -/
theorem C7_proximity_warning (known_hand_width focal_length : ℚ)
    (pixel_width : ℤ) (h : 0 < pixel_width) :
    (warningDisplayed known_hand_width focal_length pixel_width = true ↔
      estimate_distance known_hand_width focal_length pixel_width < 60) ∧
    estimate_distance 8 450 100 = 36 ∧ warningDisplayed 8 450 100 = true ∧
    estimate_distance 8 450 60 = 60 ∧ warningDisplayed 8 450 60 = false := by
  have e1 : estimate_distance 8 450 100 = 36 := by
    unfold estimate_distance
    norm_num
  have e2 : estimate_distance 8 450 60 = 60 := by
    unfold estimate_distance
    norm_num
  refine ⟨?_, e1, ?_, e2, ?_⟩
  · unfold warningDisplayed
    rw [if_pos h]
    exact ⟨of_decide_eq_true, fun hp => decide_eq_true hp⟩
  · unfold warningDisplayed
    rw [if_pos (by norm_num : (0 : ℤ) < 100)]
    exact decide_eq_true (by rw [e1]; norm_num)
  · unfold warningDisplayed
    rw [if_pos (by norm_num : (0 : ℤ) < 60)]
    exact decide_eq_false (by rw [e2]; norm_num)

/-- Witness for C7 at pixel width 100. -/
theorem C7_proximity_warning_witness :
    (0 : ℤ) < 100 ∧
    ((warningDisplayed 8 450 100 = true ↔ estimate_distance 8 450 100 < 60) ∧
      estimate_distance 8 450 100 = 36 ∧ warningDisplayed 8 450 100 = true ∧
      estimate_distance 8 450 60 = 60 ∧ warningDisplayed 8 450 60 = false) :=
  ⟨by norm_num, C7_proximity_warning 8 450 100 (by norm_num)⟩

/-- Helper: the width-prompt loop only ever accepts a positive width. -/
theorem firstValidWidth_pos {widthInputs : List (Option ℚ)} {v : ℚ}
    (h : firstValidWidth widthInputs = some v) : 0 < v := by
  induction widthInputs with
  | nil => simp [firstValidWidth] at h
  | cons a rest ih =>
    cases a with
    | none => exact ih (by simpa [firstValidWidth] using h)
    | some w =>
      simp only [firstValidWidth] at h
      split at h
      · rename_i hw
        obtain rfl : w = v := by injection h
        exact hw
      · exact ih h

/-- Helper: inversion of a successful capture iteration. -/
theorem calibStep_success_inv {known_hand_width focal_length : ℚ} {f : Frame}
    {file : List FileLine}
    (h : calibStep known_hand_width f = .success focal_length file) :
    ∃ hand, f.hand = some hand ∧
      0 < (get_hand_details hand f.width f.height).1 ∧
      focal_length = (((get_hand_details hand f.width f.height).1 : ℚ) *
        KNOWN_DISTANCE_FOR_CALIBRATION) / known_hand_width ∧
      file = writeCalibrationFile focal_length known_hand_width := by
  obtain ⟨rs, hd, wd, ht, kc⟩ := f
  cases rs <;> cases kc <;> cases hd <;> simp only [calibStep] at h <;>
    try exact absurd h (by simp)
  rename_i hand
  split at h
  · rename_i hp
    injection h with h1 h2
    subst h1
    subst h2
    exact ⟨hand, rfl, hp, rfl, rfl⟩
  · exact absurd h (by simp)

/-- Helper: inversion of a successful run of the capture loop. -/
theorem calibLoop_success_inv {known_hand_width focal_length : ℚ}
    {frames : List Frame} {file : List FileLine}
    (h : calibLoop known_hand_width frames = some (focal_length, file)) :
    (∃ pixel_width : ℤ, 0 < pixel_width ∧
      focal_length = ((pixel_width : ℚ) * KNOWN_DISTANCE_FOR_CALIBRATION) /
        known_hand_width) ∧
    file = writeCalibrationFile focal_length known_hand_width := by
  induction frames with
  | nil => simp [calibLoop] at h
  | cons f rest ih =>
    simp only [calibLoop] at h
    cases hstep : calibStep known_hand_width f with
    | success a b =>
      rw [hstep] at h
      simp only [Option.some.injEq, Prod.mk.injEq] at h
      obtain ⟨rfl, rfl⟩ := h
      obtain ⟨hand, -, hp, hfl, hfile⟩ := calibStep_success_inv hstep
      exact ⟨⟨(get_hand_details hand f.width f.height).1, hp, hfl⟩, hfile⟩
    | failureMessage =>
      rw [hstep] at h
      exact ih h
    | skip =>
      rw [hstep] at h
      exact ih h

/-- Counterexample to C8: the load path performs no positivity check, so a
calibration file holding `-1` and `-2` is loaded and used as-is. -/
theorem C8_counterexample_negative_load :
    get_calibration_data true [FileLine.num (-1), FileLine.num (-2)] ["y"] [] [] =
      some (some (-1), some (-2)) ∧ ¬ (0 : ℚ) < -1 := by
  constructor
  · have hy : pyLower "y" = "y" := by decide
    simp only [get_calibration_data, gcdChoiceLoop, hy, if_true,
      readCalibrationFile, parseFloat, List.getD]
    rfl
  · norm_num

/-- C8 (amended): every calibration record produced by the calibrate path
has positive focal length and positive hand width, and a record loaded back
from the file the calibrate path wrote is that same positive pair; the load
path itself performs no positivity check. -/
theorem C8_calibrate_record_positive (widthInputs : List (Option ℚ))
    (frames : List Frame) (focal_length known_hand_width : ℚ)
    (file : List FileLine)
    (h : calibrate widthInputs frames = some (focal_length, known_hand_width, file)) :
    0 < focal_length ∧ 0 < known_hand_width ∧
    readCalibrationFile file = some (focal_length, known_hand_width) := by
  unfold calibrate at h
  cases hw : firstValidWidth widthInputs with
  | none =>
    rw [hw] at h
    exact absurd h (by simp)
  | some khw =>
    rw [hw] at h
    dsimp only at h
    cases hl : calibLoop khw frames with
    | none =>
      rw [hl] at h
      exact absurd h (by simp)
    | some p =>
      obtain ⟨fl0, file0⟩ := p
      rw [hl] at h
      simp only [Option.some.injEq, Prod.mk.injEq] at h
      obtain ⟨rfl, rfl, rfl⟩ := h
      have hkhw := firstValidWidth_pos hw
      obtain ⟨⟨pw, hpw, hfl⟩, hfile⟩ := calibLoop_success_inv hl
      refine ⟨?_, hkhw, ?_⟩
      · rw [hfl]
        apply div_pos
        · apply mul_pos
          · exact_mod_cast hpw
          · norm_num [KNOWN_DISTANCE_FOR_CALIBRATION]
        · exact hkhw
      · rw [hfile]
        exact readCalibrationFile_writeCalibrationFile _ _

/-- Witness for C8 (amended) on the demo calibration run. -/
theorem C8_calibrate_record_positive_witness :
    calibrate [some 8] [calibDemoFrame] =
      some (450, 8, writeCalibrationFile 450 8) ∧
    ((0 : ℚ) < 450 ∧ (0 : ℚ) < 8 ∧
      readCalibrationFile (writeCalibrationFile 450 8) = some (450, 8)) :=
  ⟨calibrate_demo,
   C8_calibrate_record_positive [some 8] [calibDemoFrame] 450 8
     (writeCalibrationFile 450 8) calibrate_demo⟩

/-- Helper: whenever the result of `calibrate` is turned into the returned pair,
both components are `some`. -/
theorem calibResultPair_some {r : Option (ℚ × ℚ × List FileLine)}
    {p : Option ℚ × Option ℚ} (h : calibResultPair r = some p) :
    p.1.isSome = true ∧ p.2.isSome = true := by
  cases r with
  | none => simp [calibResultPair] at h
  | some t =>
    obtain ⟨a, b, c⟩ := t
    simp only [calibResultPair, Option.some.injEq] at h
    rw [← h]
    exact ⟨rfl, rfl⟩

/-- Helper: every terminating run of the `y`/`n` prompt loop returns a pair
with both components present. -/
theorem gcdChoiceLoop_some {file : List FileLine}
    {calibResult : Option (ℚ × ℚ × List FileLine)} {choices : List String}
    {p : Option ℚ × Option ℚ}
    (h : gcdChoiceLoop file calibResult choices = some p) :
    p.1.isSome = true ∧ p.2.isSome = true := by
  induction choices with
  | nil => simp [gcdChoiceLoop] at h
  | cons c rest ih =>
    simp only [gcdChoiceLoop] at h
    split at h
    · cases hr : readCalibrationFile file with
      | none =>
        rw [hr] at h
        exact calibResultPair_some h
      | some q =>
        obtain ⟨a, b⟩ := q
        rw [hr] at h
        simp only [Option.some.injEq] at h
        rw [← h]
        exact ⟨rfl, rfl⟩
    · split at h
      · exact calibResultPair_some h
      · exact ih h

/-- C9: every terminating run of `get_calibration_data` returns a pair in
which neither component is `None`, so the fatal message-and-return branch
in `main` is never taken. -/
theorem C9_no_fatal_branch (fileExists : Bool) (file : List FileLine)
    (choices : List String) (widthInputs : List (Option ℚ))
    (frames : List Frame) (p : Option ℚ × Option ℚ)
    (h : get_calibration_data fileExists file choices widthInputs frames = some p) :
    p.1.isSome = true ∧ p.2.isSome = true ∧ fatalBranchTaken p = false := by
  have hp : p.1.isSome = true ∧ p.2.isSome = true := by
    unfold get_calibration_data at h
    cases fileExists with
    | true => exact gcdChoiceLoop_some (by simpa using h)
    | false => exact calibResultPair_some (by simpa using h)
  obtain ⟨p1, p2⟩ := p
  obtain ⟨h1, h2⟩ := hp
  cases p1 <;> cases p2 <;> simp_all [fatalBranchTaken]

/-- Witness for C9 on a run with no calibration file and a successful demo
calibration. -/
theorem C9_no_fatal_branch_witness :
    (some (450 : ℚ)).isSome = true ∧ (some (8 : ℚ)).isSome = true ∧
    fatalBranchTaken (some 450, some 8) = false := by
  have h : get_calibration_data false [] [] [some 8] [calibDemoFrame] =
      some (some 450, some 8) := by
    simp only [get_calibration_data, Bool.false_eq_true, if_false,
      calibrate_demo, calibResultPair]
  exact C9_no_fatal_branch false [] [] [some 8] [calibDemoFrame]
    (some 450, some 8) h

/-- Demo frame for C10: capture key pressed while no hand is detected. -/
def noHandFrame : Frame :=
  { readSuccess := true, hand := none, width := 640, height := 480, keyC := true }

/-- Demo landmarks whose three points coincide, so the measured pixel width
is 0. -/
def flatHand : HandLandmarks :=
  { wrist := { x := 0, y := 0 }
    indexMcp := { x := 0, y := 0 }
    pinkyMcp := { x := 0, y := 0 } }

/-- Demo frame for C10: capture key pressed on a detected hand of measured
pixel width 0. -/
def zeroWidthFrame : Frame :=
  { readSuccess := true, hand := some flatHand, width := 640, height := 480
    keyC := true }

/-- Helper: `get_hand_details` on the coinciding demo landmarks. -/
theorem ghd_flatHand : get_hand_details flatHand 640 480 = (0, (0, 0, 0, 0)) := by
  unfold get_hand_details flatHand
  norm_num [min_def, max_def]
  rw [pytrunc_eq_of 0 0 (by norm_num) (by norm_num) (by norm_num)]

/-- C10: in the calibration capture loop, a capture keypress with no
detected hand has no effect (the iteration is a skip and the loop simply
continues), and the "Could not measure hand width" failure message occurs
exactly when a hand is detected at capture time on a successfully read
frame and its measured pixel width is 0. -/
theorem C10_capture_requires_hand (known_hand_width : ℚ) (f : Frame) :
    (f.hand = none → calibStep known_hand_width f = .skip ∧
      ∀ rest, calibLoop known_hand_width (f :: rest) =
        calibLoop known_hand_width rest) ∧
    (calibStep known_hand_width f = .failureMessage ↔
      f.readSuccess = true ∧ f.keyC = true ∧
      ∃ hand, f.hand = some hand ∧
        (get_hand_details hand f.width f.height).1 = 0) := by
  obtain ⟨rs, hd, wd, ht, kc⟩ := f
  constructor
  · intro hh
    simp only at hh
    subst hh
    have hstep : calibStep known_hand_width ⟨rs, none, wd, ht, kc⟩ = .skip := by
      cases rs <;> cases kc <;> rfl
    refine ⟨hstep, fun rest => ?_⟩
    simp only [calibLoop, hstep]
  · constructor
    · intro hmsg
      cases rs <;> cases kc <;> cases hd <;> simp only [calibStep] at hmsg <;>
        try contradiction
      rename_i hand
      split at hmsg
      · exact absurd hmsg (by simp)
      · rename_i hple
        refine ⟨rfl, rfl, hand, rfl, ?_⟩
        show (get_hand_details hand wd ht).1 = 0
        have hple2 : ¬ 0 < (get_hand_details hand wd ht).1 := hple
        have hnn := ghd_pixel_width_nonneg hand wd ht
        omega
    · rintro ⟨hrs, hkc, hand, hh, hpw⟩
      simp only at hrs hkc hh
      subst hrs hkc hh
      simp only [calibStep]
      rw [if_neg (by rw [hpw]; norm_num)]

/-- Witness for C10: a keypress with no hand is a skip, and a detected hand
of zero measured width at capture produces the failure message. -/
theorem C10_capture_requires_hand_witness :
    calibStep 8 noHandFrame = .skip ∧
    calibStep 8 zeroWidthFrame = .failureMessage := by
  have h1 := ((C10_capture_requires_hand 8 noHandFrame).1 rfl).1
  have hpw : (get_hand_details flatHand zeroWidthFrame.width
      zeroWidthFrame.height).1 = 0 := by
    rw [show zeroWidthFrame.width = 640 from rfl,
        show zeroWidthFrame.height = 480 from rfl, ghd_flatHand]
  have h2 := (C10_capture_requires_hand 8 zeroWidthFrame).2.mpr
    ⟨rfl, rfl, flatHand, rfl, hpw⟩
  exact ⟨h1, h2⟩
